import Mathlib

/-!
Verification of the AUTOSAR Default Error Tracer (DET) module
(src/src/mcal/common/det.c, det.h) against its natural-language
specification.

The C module is shallowly embedded: the file-scope static variables of
det.c become the fields of `DetState`, every operation becomes a pure
function from `DetState` (plus its arguments) to the resulting state and
observable outputs, and uint32 arithmetic is modelled as `Nat` with an
explicit reduction modulo 2^32 (`u32`) wherever the C counter can wrap.

Configuration: the embedding fixes the feature macros the way the spec
and the claims assume them, i.e. the fully featured build:
`DET_ENABLED`, `DET_ENABLE_STATISTICS = STD_ON`,
`DET_ENABLE_SEVERITY_LEVELS = STD_ON`, `DET_ENABLE_ERROR_FILTERING = STD_ON`,
`DET_TRACK_SUPPRESSION = STD_ON`, and `DET_MAX_ERROR_BUFFER_SIZE = 64U`
(the det.h default).  `DET_MAX_CALLBACKS = 8` follows the memory-budget
comment of det.c ("64-entry buffer, 8 callbacks"); the macro itself is not
defined under src/.  The `suppressed_by_filter` field used by det.c under
`DET_TRACK_SUPPRESSION` is included in the statistics record as det.c uses
it.  `Det_AcquireLock` (compiled under `DET_MULTICORE_SUPPORT = STD_ON`)
is embedded separately with the cross-core interference abstracted as an
oracle of compare-and-swap outcomes.

Out-of-bounds accesses: `Det_AddToBuffer` can compute the scan index
`0xFFFFFFFF` (see the theorems about C2).  In C this read is undefined
behaviour; the embedding models any out-of-bounds read as returning
`zeroEntry` (the value of zero-initialised static memory) and any
out-of-bounds write as a no-op (`List.set` beyond the length).  All
in-bounds behaviour is modelled exactly.
-/

namespace DetSpec

set_option maxRecDepth 100000
set_option maxHeartbeats 4000000

/-- Modulus of the C `uint32` type. -/
def UINT32_MOD : Nat := 4294967296

/-- Reduction of a `Nat` into the uint32 range, used at every point where
the uint32 arithmetic of the C code can wrap. -/
def u32 (n : Nat) : Nat := n % UINT32_MOD

/-- det.h default: `DET_MAX_ERROR_BUFFER_SIZE 64U`. -/
def DET_MAX_ERROR_BUFFER_SIZE : Nat := 64

/-- det.c memory-budget comment: 8 callbacks (macro not defined under src/). -/
def DET_MAX_CALLBACKS : Nat := 8

/-- det.c: `DET_MAX_MODULE_COUNT 256U`. -/
def DET_MAX_MODULE_COUNT : Nat := 256

/-- det.c: `DET_MODULE_ID_GLOBAL_FILTER 0xFFFFU`. -/
def DET_MODULE_ID_GLOBAL_FILTER : Nat := 65535

/-- det.c: `DET_SPINLOCK_TIMEOUT_US 1000U`. -/
def DET_SPINLOCK_TIMEOUT_US : Nat := 1000

/-- det.c: `DET_TIMESTAMP_INVALID 0xFFFFFFFFUL`. -/
def DET_TIMESTAMP_INVALID : Nat := 4294967295

/-- det.h: `DET_SEVERITY_WARNING = 0x00U`. -/
def DET_SEVERITY_WARNING : Nat := 0

/-- det.h: `DET_SEVERITY_ERROR = 0x01U`. -/
def DET_SEVERITY_ERROR : Nat := 1

/-- det.h: `DET_SEVERITY_FATAL = 0x02U`. -/
def DET_SEVERITY_FATAL : Nat := 2

/-- std_types.h: `E_OK = 0U`. -/
def E_OK : Nat := 0

/-- std_types.h: `E_NOT_OK = 1U`. -/
def E_NOT_OK : Nat := 1

/-- det.h `Det_StateType`: lifecycle state of the module. -/
inductive Det_StateType where
  | DET_STATE_UNINIT
  | DET_STATE_INIT
  | DET_STATE_STARTED
deriving DecidableEq, Repr

/-- det.h `Det_ErrorEntryType`: one slot of the circular error buffer.
All integer fields are modelled as `Nat` (moduleId is uint16, instanceId /
apiId / errorId uint8, timestamp / occurrences uint32). -/
structure Det_ErrorEntryType where
  moduleId : Nat
  instanceId : Nat
  apiId : Nat
  errorId : Nat
  severity : Nat
  timestamp : Nat
  occurrences : Nat
deriving DecidableEq, Repr

/-- det.c `Det_FilterEntryType`: per-module filter configuration. -/
structure Det_FilterEntryType where
  min_severity : Nat
  is_configured : Bool
deriving DecidableEq, Repr

/-- det.h `Det_StatisticsType` plus the `suppressed_by_filter` counter that
det.c maintains under `DET_TRACK_SUPPRESSION`. -/
structure Det_StatisticsType where
  total_errors : Nat
  unique_errors : Nat
  buffer_overflows : Nat
  runtime_errors : Nat
  transient_faults : Nat
  warnings : Nat
  errors : Nat
  fatals : Nat
  suppressed_by_filter : Nat
deriving DecidableEq, Repr

/-- The file-scope static state of det.c.  Callbacks are modelled as
optional opaque identifiers (`none` = `NULL_PTR`); `Det_TimestampCounter`
is the static counter inside `Det_GetTimestamp`. -/
structure DetState where
  Det_State : Det_StateType
  Det_ErrorBuffer : List Det_ErrorEntryType
  Det_BufferWriteIndex : Nat
  Det_BufferEntryCount : Nat
  Det_Callbacks : List (Option Nat)
  Det_CallbackCount : Nat
  Det_Statistics : Det_StatisticsType
  Det_Filters : List Det_FilterEntryType
  Det_GlobalFilter : Nat
  Det_TimestampCounter : Nat
deriving DecidableEq, Repr

/-- The all-zero error entry: value of zero-initialised static memory, and
the value the model returns for an out-of-bounds buffer read. -/
def zeroEntry : Det_ErrorEntryType :=
  { moduleId := 0, instanceId := 0, apiId := 0, errorId := 0,
    severity := 0, timestamp := 0, occurrences := 0 }

/-- All statistics counters zero. -/
def zeroStats : Det_StatisticsType :=
  { total_errors := 0, unique_errors := 0, buffer_overflows := 0,
    runtime_errors := 0, transient_faults := 0, warnings := 0,
    errors := 0, fatals := 0, suppressed_by_filter := 0 }

/-- Filter entry read out of bounds / before configuration (zero-initialised). -/
def defaultFilterEntry : Det_FilterEntryType :=
  { min_severity := 0, is_configured := false }

/-- The C program image before any call: every static variable carries its
initialiser from det.c (`Det_State = DET_STATE_UNINIT`,
`Det_GlobalFilter = DET_SEVERITY_WARNING`, everything else zero). -/
def det_powerOnState : DetState :=
  { Det_State := .DET_STATE_UNINIT,
    Det_ErrorBuffer := List.replicate DET_MAX_ERROR_BUFFER_SIZE zeroEntry,
    Det_BufferWriteIndex := 0,
    Det_BufferEntryCount := 0,
    Det_Callbacks := List.replicate DET_MAX_CALLBACKS none,
    Det_CallbackCount := 0,
    Det_Statistics := zeroStats,
    Det_Filters := List.replicate DET_MAX_MODULE_COUNT defaultFilterEntry,
    Det_GlobalFilter := DET_SEVERITY_WARNING,
    Det_TimestampCounter := 0 }

/-- det.c `Det_GetTimestamp`: returns the static counter and post-increments
it (uint32). -/
def Det_GetTimestamp (st : DetState) : Nat × DetState :=
  (st.Det_TimestampCounter,
   { st with Det_TimestampCounter := u32 (st.Det_TimestampCounter + 1) })

/-- det.c `Det_IsErrorFiltered` (lines 330-351): the module-specific filter
is used when the module id is in range and explicitly configured, otherwise
the global filter; the report is suppressed when `Severity < min_severity`. -/
def Det_IsErrorFiltered (st : DetState) (ModuleId Severity : Nat) : Bool :=
  let entry := st.Det_Filters.getD ModuleId defaultFilterEntry
  let min_severity :=
    if ModuleId < DET_MAX_MODULE_COUNT ∧ entry.is_configured then entry.min_severity
    else st.Det_GlobalFilter
  decide (Severity < min_severity)

/-- The effective minimum-severity threshold in the words of spec §4.2: the
per-module entry when one has been explicitly configured, else the global
fallback.  Stated separately from `Det_IsErrorFiltered` so the suppression
predicate can be compared against the `severity < effective_threshold` of the spec. -/
def Det_EffectiveThreshold (st : DetState) (ModuleId : Nat) : Nat :=
  let entry := st.Det_Filters.getD ModuleId defaultFilterEntry
  if ModuleId < DET_MAX_MODULE_COUNT ∧ entry.is_configured then entry.min_severity
  else st.Det_GlobalFilter

/-- det.c `Det_AddToBuffer` lines 369-371: the scan index of loop iteration
`i`, with the subtraction taken over uint32 exactly as in the C source:
`idx = (W >= i) ? (W - i - 1) : (N + W - i - 1)`. -/
def Det_ScanIdx (writeIndex i : Nat) : Nat :=
  if writeIndex ≥ i then u32 (writeIndex + UINT32_MOD - i - 1)
  else u32 (DET_MAX_ERROR_BUFFER_SIZE + writeIndex - i - 1)

/-- Signature comparison of det.c lines 373-376. -/
def Det_EntryMatches (e : Det_ErrorEntryType) (ModuleId InstanceId ApiId ErrorId : Nat) : Bool :=
  e.moduleId == ModuleId && e.instanceId == InstanceId &&
  e.apiId == ApiId && e.errorId == ErrorId

/-- The deduplication scan of `Det_AddToBuffer` (loop at lines 367-384):
the first loop iteration `i < Det_BufferEntryCount` whose scan index holds a
matching signature, if any. -/
def Det_ScanForEntry (st : DetState) (ModuleId InstanceId ApiId ErrorId : Nat) : Option Nat :=
  (List.range st.Det_BufferEntryCount).find? fun i =>
    Det_EntryMatches (st.Det_ErrorBuffer.getD (Det_ScanIdx st.Det_BufferWriteIndex i) zeroEntry)
      ModuleId InstanceId ApiId ErrorId

/-- det.c `Det_AddToBuffer` (lines 360-423): bump the matching entry if the
scan finds one, otherwise write a new entry at the write index, advance the
index circularly (counting an overflow when it wraps), and saturate the
entry count. -/
def Det_AddToBuffer (st : DetState) (ModuleId InstanceId ApiId ErrorId : Nat) : DetState :=
  match Det_ScanForEntry st ModuleId InstanceId ApiId ErrorId with
  | some i =>
    let idx := Det_ScanIdx st.Det_BufferWriteIndex i
    let e := st.Det_ErrorBuffer.getD idx zeroEntry
    let ts := Det_GetTimestamp st
    let bumped : Det_ErrorEntryType :=
      { e with occurrences := u32 (e.occurrences + 1), timestamp := ts.1 }
    { ts.2 with Det_ErrorBuffer := ts.2.Det_ErrorBuffer.set idx bumped }
  | none =>
    let ts := Det_GetTimestamp st
    let newEntry : Det_ErrorEntryType :=
      { moduleId := ModuleId, instanceId := InstanceId, apiId := ApiId,
        errorId := ErrorId, severity := DET_SEVERITY_ERROR,
        timestamp := ts.1, occurrences := 1 }
    let wi := st.Det_BufferWriteIndex + 1
    let stats := ts.2.Det_Statistics
    { ts.2 with
      Det_ErrorBuffer := ts.2.Det_ErrorBuffer.set st.Det_BufferWriteIndex newEntry,
      Det_BufferWriteIndex := if wi ≥ DET_MAX_ERROR_BUFFER_SIZE then 0 else wi,
      Det_BufferEntryCount :=
        if st.Det_BufferEntryCount < DET_MAX_ERROR_BUFFER_SIZE then
          st.Det_BufferEntryCount + 1
        else st.Det_BufferEntryCount,
      Det_Statistics :=
        { stats with
          buffer_overflows :=
            if wi ≥ DET_MAX_ERROR_BUFFER_SIZE then u32 (stats.buffer_overflows + 1)
            else stats.buffer_overflows,
          unique_errors := u32 (stats.unique_errors + 1) } }

/-- det.c `Det_InvokeCallbacks`: the list of callback invocations, in
dispatch order, as `(callback id, ModuleId, InstanceId, ApiId, ErrorId)`
tuples; null entries are skipped. -/
def Det_InvokeCallbacks (st : DetState) (ModuleId InstanceId ApiId ErrorId : Nat) :
    List (Nat × Nat × Nat × Nat × Nat) :=
  (List.range st.Det_CallbackCount).filterMap fun i =>
    match st.Det_Callbacks.getD i none with
    | some cb => some (cb, ModuleId, InstanceId, ApiId, ErrorId)
    | none => none

/-- det.c `Det_Init` (lines 454-527): no-op unless `DET_STATE_UNINIT`;
otherwise zero the buffer (timestamps invalid, severity WARNING), the
callbacks, the statistics, and reset all filters to the report-everything
default, ending in `DET_STATE_INIT`.  The ignored ConfigPtr is omitted. -/
def Det_Init (st : DetState) : DetState :=
  if st.Det_State ≠ .DET_STATE_UNINIT then st
  else
    { st with
      Det_ErrorBuffer := List.replicate DET_MAX_ERROR_BUFFER_SIZE
        ({ moduleId := 0, instanceId := 0, apiId := 0, errorId := 0,
           severity := DET_SEVERITY_WARNING, timestamp := DET_TIMESTAMP_INVALID,
           occurrences := 0 }),
      Det_BufferWriteIndex := 0,
      Det_BufferEntryCount := 0,
      Det_Callbacks := List.replicate DET_MAX_CALLBACKS none,
      Det_CallbackCount := 0,
      Det_Statistics := zeroStats,
      Det_Filters := List.replicate DET_MAX_MODULE_COUNT
        ({ min_severity := DET_SEVERITY_WARNING, is_configured := false }),
      Det_GlobalFilter := DET_SEVERITY_WARNING,
      Det_State := .DET_STATE_INIT }

/-- det.c `Det_Start`: `DET_STATE_INIT → DET_STATE_STARTED`, else no-op. -/
def Det_Start (st : DetState) : DetState :=
  if st.Det_State ≠ .DET_STATE_INIT then st
  else { st with Det_State := .DET_STATE_STARTED }

/-- The per-entry effect of the clear loop in `Det_ClearErrors` (lines
868-872): occurrences zeroed, timestamp invalidated, identity fields kept. -/
def Det_ClearEntry (e : Det_ErrorEntryType) : Det_ErrorEntryType :=
  { e with occurrences := 0, timestamp := DET_TIMESTAMP_INVALID }

/-- det.c `Det_ClearErrors` (lines 859-897): clear every buffer slot, reset
cursor and count, zero all statistics.  Filters and callbacks untouched. -/
def Det_ClearErrors (st : DetState) : DetState :=
  { st with
    Det_ErrorBuffer := st.Det_ErrorBuffer.map Det_ClearEntry,
    Det_BufferWriteIndex := 0,
    Det_BufferEntryCount := 0,
    Det_Statistics := zeroStats }

/-- det.c `Det_DeInit` (lines 532-548): no-op when uninitialised; otherwise
`Det_ClearErrors`, reset the callback count, and return to
`DET_STATE_UNINIT`.  Note: the filter table is not touched. -/
def Det_DeInit (st : DetState) : DetState :=
  if st.Det_State = .DET_STATE_UNINIT then st
  else { Det_ClearErrors st with Det_CallbackCount := 0, Det_State := .DET_STATE_UNINIT }

/-- det.c `Det_ReportError` (lines 568-615): result status, resulting state,
and the list of callback invocations performed. -/
def Det_ReportError (st : DetState) (ModuleId InstanceId ApiId ErrorId : Nat) :
    Nat × DetState × List (Nat × Nat × Nat × Nat × Nat) :=
  if st.Det_State ≠ .DET_STATE_STARTED then (E_NOT_OK, st, [])
  else if Det_IsErrorFiltered st ModuleId DET_SEVERITY_ERROR then
    (E_OK,
     { st with Det_Statistics :=
         { st.Det_Statistics with
           suppressed_by_filter := u32 (st.Det_Statistics.suppressed_by_filter + 1) } },
     [])
  else
    let st1 := Det_AddToBuffer st ModuleId InstanceId ApiId ErrorId
    let st2 := { st1 with Det_Statistics :=
      { st1.Det_Statistics with
        total_errors := u32 (st1.Det_Statistics.total_errors + 1),
        errors := u32 (st1.Det_Statistics.errors + 1) } }
    (E_OK, st2, Det_InvokeCallbacks st2 ModuleId InstanceId ApiId ErrorId)

/-- det.c `Det_ReportRuntimeError` (lines 620-636): delegate to
`Det_ReportError` and additionally count a runtime error whenever the result
is `E_OK` (which includes filter-suppressed reports). -/
def Det_ReportRuntimeError (st : DetState) (ModuleId InstanceId ApiId ErrorId : Nat) :
    Nat × DetState × List (Nat × Nat × Nat × Nat × Nat) :=
  let r := Det_ReportError st ModuleId InstanceId ApiId ErrorId
  if r.1 = E_OK then
    (r.1,
     { r.2.1 with Det_Statistics :=
         { r.2.1.Det_Statistics with
           runtime_errors := u32 (r.2.1.Det_Statistics.runtime_errors + 1) } },
     r.2.2)
  else r

/-- det.c `Det_ReportTransientFault` (lines 641-657): delegate to
`Det_ReportError` and additionally count a transient fault whenever the
result is `E_OK` (which includes filter-suppressed reports). -/
def Det_ReportTransientFault (st : DetState) (ModuleId InstanceId ApiId FaultId : Nat) :
    Nat × DetState × List (Nat × Nat × Nat × Nat × Nat) :=
  let r := Det_ReportError st ModuleId InstanceId ApiId FaultId
  if r.1 = E_OK then
    (r.1,
     { r.2.1 with Det_Statistics :=
         { r.2.1.Det_Statistics with
           transient_faults := u32 (r.2.1.Det_Statistics.transient_faults + 1) } },
     r.2.2)
  else r

/-- det.c `Det_SetFilter` (lines 903-929). -/
def Det_SetFilter (st : DetState) (ModuleId MinSeverity : Nat) : Nat × DetState :=
  if MinSeverity > DET_SEVERITY_FATAL then (E_NOT_OK, st)
  else if ModuleId = DET_MODULE_ID_GLOBAL_FILTER then
    (E_OK, { st with Det_GlobalFilter := MinSeverity })
  else if ModuleId < DET_MAX_MODULE_COUNT then
    (E_OK, { st with Det_Filters :=
      st.Det_Filters.set ModuleId ({ min_severity := MinSeverity, is_configured := true }) })
  else (E_NOT_OK, st)

/-- det.c `Det_IterateErrors` (lines 814-854): returns the accumulated call
count, the list of buffer indices visited (in visit order; the callback
receives `Det_ErrorBuffer[idx]` for each), and the unchanged state (the
source writes no global variable).  A null callback visits nothing. -/
def Det_IterateErrors (st : DetState) (callback : Option Nat) :
    Nat × List Nat × DetState :=
  match callback with
  | none => (0, [], st)
  | some _ =>
    if st.Det_BufferEntryCount = 0 then (0, [], st)
    else
      let start_idx :=
        if st.Det_BufferEntryCount < DET_MAX_ERROR_BUFFER_SIZE then 0
        else st.Det_BufferWriteIndex
      let idxs := (List.range st.Det_BufferEntryCount).map
        fun i => (start_idx + i) % DET_MAX_ERROR_BUFFER_SIZE
      (st.Det_BufferEntryCount, idxs, st)

/-- det.c spinlock structure (multicore build). -/
structure Det_SpinlockType where
  lock : Nat
  owner_core : Nat
deriving DecidableEq, Repr

/-- Observable outcome of `Det_AcquireLock`: the final lock variable, the
number of compare-and-swap attempts performed, and whether the timeout
fallback (force-clearing the lock) was taken.  The C function returns
`void` either way: a caller cannot distinguish `forced` from a normal
acquisition. -/
structure Det_AcquireResult where
  lock : Det_SpinlockType
  attempts : Nat
  forced : Bool
deriving DecidableEq, Repr

/-- The retry loop of det.c `Det_AcquireLock` (lines 264-292).  `cas n`
abstracts the `__sync_bool_compare_and_swap` outcome of the `n`-th attempt
(success depends on the other core, outside this module).  On success the
lock variable becomes 1; when the budget is exhausted the lock variable is
force-cleared to 0. -/
def Det_AcquireLoop (cas : Nat → Bool) (lk : Det_SpinlockType) :
    Nat → Nat → Det_AcquireResult
  | 0, attempts => { lock := { lk with lock := 0 }, attempts := attempts, forced := true }
  | timeout + 1, attempts =>
    if cas attempts then
      { lock := { lk with lock := 1 }, attempts := attempts + 1, forced := false }
    else Det_AcquireLoop cas lk timeout (attempts + 1)

/-- det.c `Det_AcquireLock`: run the retry loop with the full
`DET_SPINLOCK_TIMEOUT_US` budget. -/
def Det_AcquireLock (cas : Nat → Bool) (lk : Det_SpinlockType) : Det_AcquireResult :=
  Det_AcquireLoop cas lk DET_SPINLOCK_TIMEOUT_US 0

/-- The canonical freshly started module: `Det_Start (Det_Init ...)` from
the power-on image. -/
def Det_StartedState : DetState := Det_Start (Det_Init det_powerOnState)

/-- The state after reporting `m` pairwise distinct signatures
`(j+1, 0, 0, 0)` for `j < m` into the freshly started module. -/
def Det_RunDistinct (m : Nat) : DetState :=
  (List.range m).foldl (fun st j => (Det_ReportError st (j + 1) 0 0 0).2.1) Det_StartedState

/-- Number of currently valid buffer slots (`count`, capped at capacity). -/
def Det_ValidSlotCount (st : DetState) : Nat :=
  min st.Det_BufferEntryCount DET_MAX_ERROR_BUFFER_SIZE

/-- How many valid slots hold the given signature. -/
def Det_SignatureCount (st : DetState) (ModuleId InstanceId ApiId ErrorId : Nat) : Nat :=
  ((List.range (Det_ValidSlotCount st)).map
     fun idx => st.Det_ErrorBuffer.getD idx zeroEntry).countP
    fun e => Det_EntryMatches e ModuleId InstanceId ApiId ErrorId

/-- Reporting the same signature `k` times in a row. -/
def Det_ReportKState (st : DetState) (ModuleId InstanceId ApiId ErrorId k : Nat) : DetState :=
  match k with
  | 0 => st
  | k + 1 =>
    (Det_ReportError (Det_ReportKState st ModuleId InstanceId ApiId ErrorId k)
      ModuleId InstanceId ApiId ErrorId).2.1

/-- Index of the `j`-th most recent slot (j = 0 is the most recently
written slot, the one `Det_GetLastError` reads). -/
def Det_RecencyIdx (st : DetState) (j : Nat) : Nat :=
  (st.Det_BufferWriteIndex + DET_MAX_ERROR_BUFFER_SIZE - 1 - j) % DET_MAX_ERROR_BUFFER_SIZE

/-- Structural invariant of the ring store, established by `Det_Init` /
`Det_ClearErrors` and preserved by every operation: the count is capped at
the capacity, the cursor is in range, the buffer has its C array length,
and while the buffer has not yet wrapped the cursor equals the count. -/
def Det_Inv (st : DetState) : Prop :=
  st.Det_BufferEntryCount ≤ DET_MAX_ERROR_BUFFER_SIZE ∧
  st.Det_BufferWriteIndex < DET_MAX_ERROR_BUFFER_SIZE ∧
  st.Det_ErrorBuffer.length = DET_MAX_ERROR_BUFFER_SIZE ∧
  (st.Det_BufferEntryCount < DET_MAX_ERROR_BUFFER_SIZE →
    st.Det_BufferWriteIndex = st.Det_BufferEntryCount)

instance (st : DetState) : Decidable (Det_Inv st) := by
  unfold Det_Inv; infer_instance

/-! Helper lemmas about the embedding, shared by the claim theorems. -/

/-- Reading back the slot just written. -/
lemma getD_set_self {α : Type} (l : List α) (i : Nat) (e d : α) (h : i < l.length) :
    (l.set i e).getD i d = e := by
  simp [List.getD, List.getElem?_set_self h]

/-- Value of `getD` on a replicated list. -/
lemma getD_replicate {α : Type} (n : Nat) (a d : α) (i : Nat) :
    (List.replicate n a).getD i d = if i < n then a else d := by
  induction n generalizing i with
  | zero => simp
  | succ n ih =>
    cases i with
    | zero => simp [List.replicate]
    | succ i => simpa [List.replicate, Nat.succ_lt_succ_iff] using ih i

/-- The suppression predicate only reads the filter table and the global
filter. -/
lemma isErrorFiltered_congr (st st2 : DetState) (ModuleId Severity : Nat)
    (hf : st.Det_Filters = st2.Det_Filters)
    (hg : st.Det_GlobalFilter = st2.Det_GlobalFilter) :
    Det_IsErrorFiltered st ModuleId Severity = Det_IsErrorFiltered st2 ModuleId Severity := by
  unfold Det_IsErrorFiltered
  rw [hf, hg]

/-- Unfolding of `Det_AddToBuffer`, insertion branch: explicit resulting state. -/
lemma addToBuffer_none (st : DetState) (M I A E : Nat)
    (h : Det_ScanForEntry st M I A E = none) :
    Det_AddToBuffer st M I A E =
      { st with
        Det_ErrorBuffer := st.Det_ErrorBuffer.set st.Det_BufferWriteIndex
          ({ moduleId := M, instanceId := I, apiId := A, errorId := E,
             severity := DET_SEVERITY_ERROR, timestamp := st.Det_TimestampCounter,
             occurrences := 1 }),
        Det_BufferWriteIndex :=
          if st.Det_BufferWriteIndex + 1 ≥ DET_MAX_ERROR_BUFFER_SIZE then 0
          else st.Det_BufferWriteIndex + 1,
        Det_BufferEntryCount :=
          if st.Det_BufferEntryCount < DET_MAX_ERROR_BUFFER_SIZE then
            st.Det_BufferEntryCount + 1
          else st.Det_BufferEntryCount,
        Det_Statistics :=
          { st.Det_Statistics with
            buffer_overflows :=
              if st.Det_BufferWriteIndex + 1 ≥ DET_MAX_ERROR_BUFFER_SIZE
              then u32 (st.Det_Statistics.buffer_overflows + 1)
              else st.Det_Statistics.buffer_overflows,
            unique_errors := u32 (st.Det_Statistics.unique_errors + 1) },
        Det_TimestampCounter := u32 (st.Det_TimestampCounter + 1) } := by
  unfold Det_AddToBuffer Det_GetTimestamp
  rw [h]

/-- Unfolding of `Det_AddToBuffer`, duplicate-bump branch: explicit resulting state. -/
lemma addToBuffer_some (st : DetState) (M I A E i : Nat)
    (h : Det_ScanForEntry st M I A E = some i) :
    Det_AddToBuffer st M I A E =
      { st with
        Det_ErrorBuffer := st.Det_ErrorBuffer.set (Det_ScanIdx st.Det_BufferWriteIndex i)
          ({ st.Det_ErrorBuffer.getD (Det_ScanIdx st.Det_BufferWriteIndex i) zeroEntry with
             occurrences :=
               u32 ((st.Det_ErrorBuffer.getD (Det_ScanIdx st.Det_BufferWriteIndex i)
                 zeroEntry).occurrences + 1),
             timestamp := st.Det_TimestampCounter }),
        Det_TimestampCounter := u32 (st.Det_TimestampCounter + 1) } := by
  unfold Det_AddToBuffer Det_GetTimestamp
  rw [h]

/-- Unfolding of `Det_ReportError`, accepted (started, not suppressed): the state
component is `Det_AddToBuffer` followed by the statistics bump. -/
lemma reportError_accepted (st : DetState) (M I A E : Nat)
    (hS : st.Det_State = .DET_STATE_STARTED)
    (hF : Det_IsErrorFiltered st M DET_SEVERITY_ERROR = false) :
    Det_ReportError st M I A E =
      (E_OK,
       { Det_AddToBuffer st M I A E with Det_Statistics :=
           { (Det_AddToBuffer st M I A E).Det_Statistics with
             total_errors := u32 ((Det_AddToBuffer st M I A E).Det_Statistics.total_errors + 1),
             errors := u32 ((Det_AddToBuffer st M I A E).Det_Statistics.errors + 1) } },
       Det_InvokeCallbacks
         ({ Det_AddToBuffer st M I A E with Det_Statistics :=
             { (Det_AddToBuffer st M I A E).Det_Statistics with
               total_errors := u32 ((Det_AddToBuffer st M I A E).Det_Statistics.total_errors + 1),
               errors := u32 ((Det_AddToBuffer st M I A E).Det_Statistics.errors + 1) } })
         M I A E) := by
  unfold Det_ReportError
  rw [if_neg (by simp [hS]), if_neg (by simp [hF])]

/-- C5: in any lifecycle state other than Started, `Det_ReportError`
returns `E_NOT_OK`, leaves the entire module state (buffer, cursor, count,
statistics, callbacks, filters) unchanged, and invokes no callback. -/
theorem c5_report_before_start_no_effect (st : DetState) (ModuleId InstanceId ApiId ErrorId : Nat)
    (h : st.Det_State ≠ .DET_STATE_STARTED) :
    Det_ReportError st ModuleId InstanceId ApiId ErrorId = (E_NOT_OK, st, []) := by
  unfold Det_ReportError
  rw [if_pos h]

/-- Witness for C5 at the power-on (uninitialised) state. -/
theorem c5_witness :
    det_powerOnState.Det_State ≠ Det_StateType.DET_STATE_STARTED ∧
    Det_ReportError det_powerOnState 1 2 3 4 = (E_NOT_OK, det_powerOnState, []) :=
  ⟨by decide, c5_report_before_start_no_effect det_powerOnState 1 2 3 4 (by decide)⟩

/-- C7: suppression holds iff the severity is strictly below the effective
threshold (per-module entry when configured, global fallback otherwise);
right after `Det_Init` the effective threshold of every module is the
lowest severity (Warning) and nothing is suppressed; and a successful
`Det_SetFilter` makes the per-module entry the effective threshold. -/
theorem c7_filter_semantics :
    (∀ (st : DetState) (ModuleId Severity : Nat),
       Det_IsErrorFiltered st ModuleId Severity =
         decide (Severity < Det_EffectiveThreshold st ModuleId)) ∧
    (∀ ModuleId : Nat,
       Det_EffectiveThreshold (Det_Init det_powerOnState) ModuleId = DET_SEVERITY_WARNING) ∧
    (∀ ModuleId Severity : Nat,
       Det_IsErrorFiltered (Det_Init det_powerOnState) ModuleId Severity = false) ∧
    (∀ (st : DetState) (ModuleId MinSeverity : Nat),
       st.Det_Filters.length = DET_MAX_MODULE_COUNT →
       ModuleId < DET_MAX_MODULE_COUNT →
       MinSeverity ≤ DET_SEVERITY_FATAL →
       Det_EffectiveThreshold (Det_SetFilter st ModuleId MinSeverity).2 ModuleId = MinSeverity) := by
  have h1 : ∀ (st : DetState) (ModuleId Severity : Nat),
      Det_IsErrorFiltered st ModuleId Severity =
        decide (Severity < Det_EffectiveThreshold st ModuleId) := fun _ _ _ => rfl
  have hfil : (Det_Init det_powerOnState).Det_Filters =
      List.replicate DET_MAX_MODULE_COUNT
        ({ min_severity := DET_SEVERITY_WARNING, is_configured := false }) := rfl
  have hglob : (Det_Init det_powerOnState).Det_GlobalFilter = DET_SEVERITY_WARNING := rfl
  have h2 : ∀ ModuleId : Nat,
      Det_EffectiveThreshold (Det_Init det_powerOnState) ModuleId = DET_SEVERITY_WARNING := by
    intro M
    unfold Det_EffectiveThreshold
    rw [hfil, hglob, getD_replicate]
    by_cases h : M < DET_MAX_MODULE_COUNT <;>
      simp [h, DET_SEVERITY_WARNING, defaultFilterEntry]
  refine ⟨h1, h2, ?_, ?_⟩
  · intro M S
    rw [h1, h2]
    simp [DET_SEVERITY_WARNING]
  · intro st M sev hlen hM hsev
    unfold Det_SetFilter
    rw [if_neg (by simp [DET_SEVERITY_FATAL] at hsev ⊢; omega),
        if_neg (by simp [DET_MODULE_ID_GLOBAL_FILTER, DET_MAX_MODULE_COUNT] at hM ⊢; omega),
        if_pos hM]
    unfold Det_EffectiveThreshold
    simp only []
    rw [getD_set_self _ _ _ _ (by rw [hlen]; exact hM)]
    simp [hM]

/-- Witness for C7 instantiating every quantified part, in particular the
per-module precedence clause after a concrete `Det_SetFilter`. -/
theorem c7_witness :
    Det_IsErrorFiltered Det_StartedState 3 0 =
      decide (0 < Det_EffectiveThreshold Det_StartedState 3) ∧
    Det_EffectiveThreshold (Det_Init det_powerOnState) 3 = DET_SEVERITY_WARNING ∧
    Det_IsErrorFiltered (Det_Init det_powerOnState) 3 2 = false ∧
    Det_EffectiveThreshold (Det_SetFilter Det_StartedState 9 2).2 9 = 2 :=
  ⟨c7_filter_semantics.1 Det_StartedState 3 0,
   c7_filter_semantics.2.1 3,
   c7_filter_semantics.2.2.1 3 2,
   c7_filter_semantics.2.2.2 Det_StartedState 9 2 (by decide) (by decide) (by decide)⟩

/-- Helper for C10: the retry loop performs at most `timeout` further
compare-and-swap attempts. -/
lemma acquireLoop_attempts_le (cas : Nat → Bool) (lk : Det_SpinlockType) :
    ∀ timeout attempts,
      (Det_AcquireLoop cas lk timeout attempts).attempts ≤ attempts + timeout := by
  intro t
  induction t with
  | zero => intro a; simp [Det_AcquireLoop]
  | succ t ih =>
    intro a
    unfold Det_AcquireLoop
    by_cases h : cas a
    · simp [h]
    · simp [h]
      calc (Det_AcquireLoop cas lk t (a + 1)).attempts ≤ (a + 1) + t := ih (a + 1)
        _ ≤ a + (t + 1) := by omega

/-- Helper for C10: when every compare-and-swap fails, the loop exhausts
its budget, force-clears the lock variable to 0 and returns (no failure
outcome exists for the caller to observe). -/
lemma acquireLoop_all_fail (cas : Nat → Bool) (lk : Det_SpinlockType)
    (h : ∀ n, cas n = false) :
    ∀ timeout attempts,
      Det_AcquireLoop cas lk timeout attempts =
        { lock := { lk with lock := 0 }, attempts := attempts + timeout, forced := true } := by
  intro t
  induction t with
  | zero => intro a; simp [Det_AcquireLoop]
  | succ t ih =>
    intro a
    unfold Det_AcquireLoop
    rw [h a]
    simp only [Bool.false_eq_true, if_false]
    rw [ih (a + 1)]
    congr 1
    omega

/-- C10: `Det_AcquireLock` always terminates within the
`DET_SPINLOCK_TIMEOUT_US` retry budget (for every interference pattern and
every initial lock state), and when the lock is continuously held — every
compare-and-swap attempt fails — it force-clears the lock variable to 0 and
returns exactly as it does on a successful acquisition (the C function
returns `void`; no failure is surfaced to the caller). -/
theorem c10_acquire_bounded (cas : Nat → Bool) (lk : Det_SpinlockType) :
    (Det_AcquireLock cas lk).attempts ≤ DET_SPINLOCK_TIMEOUT_US ∧
    ((∀ n, cas n = false) →
      Det_AcquireLock cas lk =
        { lock := { lock := 0, owner_core := lk.owner_core },
          attempts := DET_SPINLOCK_TIMEOUT_US, forced := true }) := by
  constructor
  · simpa using acquireLoop_attempts_le cas lk DET_SPINLOCK_TIMEOUT_US 0
  · intro h
    unfold Det_AcquireLock
    rw [acquireLoop_all_fail cas lk h DET_SPINLOCK_TIMEOUT_US 0]
    norm_num

/-- Witness for C10 with a permanently contended lock owned by core 7. -/
theorem c10_witness :
    (Det_AcquireLock (fun _ => false) ⟨1, 7⟩).attempts ≤ DET_SPINLOCK_TIMEOUT_US ∧
    Det_AcquireLock (fun _ => false) ⟨1, 7⟩ =
      { lock := { lock := 0, owner_core := 7 },
        attempts := DET_SPINLOCK_TIMEOUT_US, forced := true } :=
  ⟨(c10_acquire_bounded (fun _ => false) ⟨1, 7⟩).1,
   (c10_acquire_bounded (fun _ => false) ⟨1, 7⟩).2 (fun _ => rfl)⟩

/-- Statistics update of a suppressed report: only `suppressed_by_filter`
is incremented. -/
def Det_SuppressedUpdate (st : DetState) : DetState :=
  { st with Det_Statistics :=
      { st.Det_Statistics with
        suppressed_by_filter := u32 (st.Det_Statistics.suppressed_by_filter + 1) } }

/-- Increment of the runtime-error class counter. -/
def Det_RuntimeBump (st : DetState) : DetState :=
  { st with Det_Statistics :=
      { st.Det_Statistics with
        runtime_errors := u32 (st.Det_Statistics.runtime_errors + 1) } }

/-- Increment of the transient-fault class counter. -/
def Det_TransientBump (st : DetState) : DetState :=
  { st with Det_Statistics :=
      { st.Det_Statistics with
        transient_faults := u32 (st.Det_Statistics.transient_faults + 1) } }

/-- C4 (amended): when the filter suppresses a report in Started state, the
operation returns `E_OK`, stores nothing, invokes no callback, and leaves
total / unique / per-severity counters untouched; `Det_ReportError`
increments only `suppressed_by_filter`, while `Det_ReportRuntimeError`
additionally increments `runtime_errors` and `Det_ReportTransientFault`
additionally increments `transient_faults` (they bump their class counter
on every `E_OK` result, which a suppressed report also produces). -/
theorem c4_suppression_effect (st : DetState) (M I A E F : Nat)
    (hS : st.Det_State = .DET_STATE_STARTED)
    (hF : Det_IsErrorFiltered st M DET_SEVERITY_ERROR = true) :
    Det_ReportError st M I A E = (E_OK, Det_SuppressedUpdate st, []) ∧
    Det_ReportRuntimeError st M I A E =
      (E_OK, Det_RuntimeBump (Det_SuppressedUpdate st), []) ∧
    Det_ReportTransientFault st M I A F =
      (E_OK, Det_TransientBump (Det_SuppressedUpdate st), []) := by
  have h1 : ∀ X : Nat, Det_ReportError st M I A X = (E_OK, Det_SuppressedUpdate st, []) := by
    intro X
    unfold Det_ReportError
    rw [if_neg (by simp [hS]), if_pos (by simp [hF])]
    rfl
  refine ⟨h1 E, ?_, ?_⟩
  · unfold Det_ReportRuntimeError
    rw [h1 E]
    rfl
  · unfold Det_ReportTransientFault
    rw [h1 F]
    rfl

/-- A started module whose filter for module 5 demands Fatal severity, so
that reports from module 5 (implicit severity Error) are suppressed. -/
def c4CounterState : DetState := (Det_SetFilter Det_StartedState 5 DET_SEVERITY_FATAL).2

/-- Counterexample for C4 as frozen: a suppressed `Det_ReportRuntimeError`
increments the `runtime_errors` counter (from 0 to 1) in addition to
`suppressed_by_filter`, contradicting "none of total, unique, per-severity,
runtime, or transient counters change". -/
theorem c4_counterexample :
    c4CounterState.Det_State = Det_StateType.DET_STATE_STARTED ∧
    Det_IsErrorFiltered c4CounterState 5 DET_SEVERITY_ERROR = true ∧
    c4CounterState.Det_Statistics.runtime_errors = 0 ∧
    (Det_ReportRuntimeError c4CounterState 5 0 0 0).1 = E_OK ∧
    (Det_ReportRuntimeError c4CounterState 5 0 0 0).2.1.Det_Statistics.suppressed_by_filter = 1 ∧
    (Det_ReportRuntimeError c4CounterState 5 0 0 0).2.1.Det_Statistics.runtime_errors = 1 := by
  decide

/-- Witness for the amended C4 theorem at the concrete suppressed state. -/
theorem c4_witness :
    Det_ReportError c4CounterState 5 0 0 1 = (E_OK, Det_SuppressedUpdate c4CounterState, []) ∧
    Det_ReportRuntimeError c4CounterState 5 0 0 1 =
      (E_OK, Det_RuntimeBump (Det_SuppressedUpdate c4CounterState), []) ∧
    Det_ReportTransientFault c4CounterState 5 0 0 2 =
      (E_OK, Det_TransientBump (Det_SuppressedUpdate c4CounterState), []) :=
  c4_suppression_effect c4CounterState 5 0 0 1 2 (by decide) (by decide)

/-- C8 (amended): `Det_DeInit` from any initialised state returns the
module to Uninitialized, clears the store (all occurrence/timestamp fields,
cursor and count), zeroes the statistics, and empties the callback
registry, but leaves the Filter Table and the global fallback threshold
exactly as they were (they are only reset by the next `Det_Init`). -/
theorem c8_deinit_effect (st : DetState) (h : st.Det_State ≠ .DET_STATE_UNINIT) :
    Det_DeInit st =
      { st with
        Det_State := .DET_STATE_UNINIT,
        Det_ErrorBuffer := st.Det_ErrorBuffer.map Det_ClearEntry,
        Det_BufferWriteIndex := 0,
        Det_BufferEntryCount := 0,
        Det_Statistics := zeroStats,
        Det_CallbackCount := 0 } ∧
    (Det_DeInit st).Det_Filters = st.Det_Filters ∧
    (Det_DeInit st).Det_GlobalFilter = st.Det_GlobalFilter := by
  have h1 : Det_DeInit st =
      { st with
        Det_State := .DET_STATE_UNINIT,
        Det_ErrorBuffer := st.Det_ErrorBuffer.map Det_ClearEntry,
        Det_BufferWriteIndex := 0,
        Det_BufferEntryCount := 0,
        Det_Statistics := zeroStats,
        Det_CallbackCount := 0 } := by
    unfold Det_DeInit Det_ClearErrors
    rw [if_neg h]
  exact ⟨h1, by rw [h1], by rw [h1]⟩

/-- An initialised state with a configured per-module filter (module 5 at
Fatal) and a raised global threshold (Error). -/
def c8SetupState : DetState :=
  (Det_SetFilter (Det_SetFilter (Det_Init det_powerOnState) 5 DET_SEVERITY_FATAL).2
    DET_MODULE_ID_GLOBAL_FILTER DET_SEVERITY_ERROR).2

/-- Counterexample for C8 as frozen: after `Det_DeInit` alone the filter
entry of module 5 is still configured and the global fallback is still
Error, not the report-everything default (Warning). -/
theorem c8_counterexample :
    (Det_DeInit c8SetupState).Det_State = Det_StateType.DET_STATE_UNINIT ∧
    ((Det_DeInit c8SetupState).Det_Filters.getD 5 defaultFilterEntry).is_configured = true ∧
    (Det_DeInit c8SetupState).Det_GlobalFilter = DET_SEVERITY_ERROR ∧
    DET_SEVERITY_ERROR ≠ DET_SEVERITY_WARNING := by
  decide

/-- Witness for the amended C8 theorem at the concrete configured state. -/
theorem c8_witness :
    Det_DeInit c8SetupState =
      { c8SetupState with
        Det_State := .DET_STATE_UNINIT,
        Det_ErrorBuffer := c8SetupState.Det_ErrorBuffer.map Det_ClearEntry,
        Det_BufferWriteIndex := 0,
        Det_BufferEntryCount := 0,
        Det_Statistics := zeroStats,
        Det_CallbackCount := 0 } ∧
    (Det_DeInit c8SetupState).Det_Filters = c8SetupState.Det_Filters ∧
    (Det_DeInit c8SetupState).Det_GlobalFilter = c8SetupState.Det_GlobalFilter :=
  c8_deinit_effect c8SetupState (by decide)

/-- Concrete facts about the run of 63 distinct reports: the buffer is not
yet full and no overflow has been counted. -/
lemma runDistinct63_facts :
    (Det_RunDistinct 63).Det_BufferEntryCount = 63 ∧
    (Det_RunDistinct 63).Det_Statistics.buffer_overflows = 0 := by
  decide

/-- Concrete facts about the run of 64 distinct reports: the cursor wrapped
to 0, the buffer is exactly full, and the overflow counter is already 1
even though no live entry has been evicted yet. -/
lemma runDistinct64_facts :
    (Det_RunDistinct 64).Det_BufferWriteIndex = 0 ∧
    (Det_RunDistinct 64).Det_BufferEntryCount = 64 ∧
    (Det_RunDistinct 64).Det_Statistics.buffer_overflows = 1 := by
  decide

/-- Concrete facts about the run of 65 distinct reports: the 65th insertion
evicted the live entry in slot 0 (the store was full), yet the overflow
counter did not move. -/
lemma runDistinct65_facts :
    (Det_RunDistinct 65).Det_BufferEntryCount = 64 ∧
    (Det_RunDistinct 65).Det_Statistics.buffer_overflows = 1 := by
  decide

/-- C2: the claim that every deduplication-scan access is in bounds is
refuted by the code itself.  The state after 64 distinct reports is
reachable and has write index 0 with entry count 64, so the very first
scan iteration (i = 0 < count) takes the `writeIndex >= i` branch and
computes `0 - 0 - 1` over uint32, i.e. slot index 2^32 - 1, far outside
`[0, DET_MAX_ERROR_BUFFER_SIZE)`: `Det_ErrorBuffer[0xFFFFFFFF]` is read
out of bounds.  The fifth conjunct is the negation of the in-bounds
property exactly as the claim quantifies it (every writeIndex < N, every
count ≤ N, every i < count); the final conjunct localises the failure:
for every loop iteration other than `i = writeIndex` the computed index
is in bounds, so the `>=`-for-`>` guard is precisely the slip. -/
theorem c2_scan_index_out_of_bounds :
    (Det_RunDistinct 64).Det_BufferWriteIndex = 0 ∧
    (Det_RunDistinct 64).Det_BufferEntryCount = 64 ∧
    0 < (Det_RunDistinct 64).Det_BufferEntryCount ∧
    Det_ScanIdx (Det_RunDistinct 64).Det_BufferWriteIndex 0 = UINT32_MOD - 1 ∧
    ¬ (∀ W count i : Nat,
         W < DET_MAX_ERROR_BUFFER_SIZE →
         count ≤ DET_MAX_ERROR_BUFFER_SIZE →
         i < count →
         Det_ScanIdx W i < DET_MAX_ERROR_BUFFER_SIZE) ∧
    (∀ W i : Nat,
       W < DET_MAX_ERROR_BUFFER_SIZE → i < DET_MAX_ERROR_BUFFER_SIZE → i ≠ W →
       Det_ScanIdx W i < DET_MAX_ERROR_BUFFER_SIZE) := by
  have hW := runDistinct64_facts.1
  have hcount := runDistinct64_facts.2.1
  refine ⟨hW, hcount, ?_, ?_, ?_, ?_⟩
  · rw [hcount]
    decide
  · rw [hW]
    decide
  · intro hall
    exact absurd (hall 0 64 0 (by decide) (by decide) (by decide)) (by decide)
  · intro W i hWlt hilt hne
    unfold Det_ScanIdx u32
    simp only [DET_MAX_ERROR_BUFFER_SIZE, UINT32_MOD] at hWlt hilt ⊢
    by_cases h : W ≥ i
    · rw [if_pos h]
      omega
    · rw [if_neg h]
      omega

/-- The state after filling the buffer with signatures (1,0,0,0) ... (64,0,0,0)
and then reporting (64,0,0,0) — the signature occupying slot 63 — again. -/
def c1FinalState : DetState := (Det_ReportError (Det_RunDistinct 64) 64 0 0 0).2.1

/-- C1: the at-most-one-entry-per-signature invariant fails once the write
cursor has wrapped: because the broken scan index of loop iteration
`i = writeIndex` reads out of bounds instead of slot 63, re-reporting the
signature stored in slot 63 is not recognised as a duplicate and a second
entry with the same signature (64,0,0,0) is created, so two valid slots
hold the same signature. -/
theorem c1_duplicate_signature :
    Det_SignatureCount c1FinalState 64 0 0 0 = 2 ∧
    ¬ Det_SignatureCount c1FinalState 64 0 0 0 ≤ 1 := by
  have h : Det_SignatureCount c1FinalState 64 0 0 0 = 2 := by decide
  exact ⟨h, by omega⟩

/-- C3 (amended): the overflow counter increments exactly when the write
cursor wraps past the end of the buffer — i.e. when a new signature is
written into the last slot (`writeIndex + 1 = N`) — and never on a
duplicate bump.  The first wrap already happens at the N-th distinct
insertion into an empty store (when the store merely becomes full), so
after N = 64 distinct signatures the counter is 1, and the (N+1)-th
distinct signature, which does evict a live entry, leaves it at 1. -/
theorem c3_overflow_on_wrap :
    (∀ (st : DetState) (M I A E : Nat),
       Det_ScanForEntry st M I A E = none →
       (Det_AddToBuffer st M I A E).Det_Statistics.buffer_overflows =
         (if st.Det_BufferWriteIndex + 1 ≥ DET_MAX_ERROR_BUFFER_SIZE
          then u32 (st.Det_Statistics.buffer_overflows + 1)
          else st.Det_Statistics.buffer_overflows)) ∧
    (∀ (st : DetState) (M I A E i : Nat),
       Det_ScanForEntry st M I A E = some i →
       (Det_AddToBuffer st M I A E).Det_Statistics = st.Det_Statistics) ∧
    (Det_RunDistinct 63).Det_Statistics.buffer_overflows = 0 ∧
    (Det_RunDistinct 64).Det_Statistics.buffer_overflows = 1 ∧
    (Det_RunDistinct 65).Det_Statistics.buffer_overflows = 1 ∧
    (Det_RunDistinct 64).Det_BufferEntryCount = 64 := by
  refine ⟨?_, ?_, runDistinct63_facts.2, runDistinct64_facts.2.2,
    runDistinct65_facts.2, runDistinct64_facts.2.1⟩
  · intro st M I A E h
    rw [addToBuffer_none st M I A E h]
  · intro st M I A E i h
    rw [addToBuffer_some st M I A E i h]

/-- Counterexample for C3 as frozen: inserting exactly N = 64 distinct
signatures into the empty store leaves the overflow counter at 1, not 0 —
the increment fires on the cursor wrap at the 64th insertion (store count
was 63, nothing was evicted), not on the eviction at the 65th (where the
counter stays 1). -/
theorem c3_counterexample :
    (Det_RunDistinct 63).Det_BufferEntryCount = 63 ∧
    (Det_RunDistinct 63).Det_Statistics.buffer_overflows = 0 ∧
    (Det_RunDistinct 64).Det_Statistics.buffer_overflows = 1 ∧
    (Det_RunDistinct 64).Det_Statistics.buffer_overflows ≠ 0 ∧
    (Det_RunDistinct 65).Det_Statistics.buffer_overflows = 1 := by
  refine ⟨runDistinct63_facts.1, runDistinct63_facts.2, runDistinct64_facts.2.2, ?_,
    runDistinct65_facts.2⟩
  rw [runDistinct64_facts.2.2]
  decide

/-- Witness for the amended C3 theorem: the insertion branch at the freshly
started (empty) module, where the scan finds nothing. -/
theorem c3_witness :
    Det_ScanForEntry Det_StartedState 1 0 0 0 = none ∧
    (Det_AddToBuffer Det_StartedState 1 0 0 0).Det_Statistics.buffer_overflows =
      (if Det_StartedState.Det_BufferWriteIndex + 1 ≥ DET_MAX_ERROR_BUFFER_SIZE
       then u32 (Det_StartedState.Det_Statistics.buffer_overflows + 1)
       else Det_StartedState.Det_Statistics.buffer_overflows) :=
  ⟨by decide, c3_overflow_on_wrap.1 Det_StartedState 1 0 0 0 (by decide)⟩

/-- Helper for C6: reporting the same signature `k ≥ 1` times into a
Started module with an empty store (and a filter that does not suppress the
signature) keeps exactly one valid entry, in slot 0, carrying the signature
with `occurrences = k mod 2^32`, and leaves the lifecycle state and the
filter configuration untouched. -/
lemma reportK_spec (st0 : DetState) (M I A E : Nat)
    (hS : st0.Det_State = .DET_STATE_STARTED)
    (hC : st0.Det_BufferEntryCount = 0)
    (hW : st0.Det_BufferWriteIndex = 0)
    (hL : st0.Det_ErrorBuffer.length = DET_MAX_ERROR_BUFFER_SIZE)
    (hF : Det_IsErrorFiltered st0 M DET_SEVERITY_ERROR = false) :
    ∀ k, 1 ≤ k →
      (Det_ReportKState st0 M I A E k).Det_State = .DET_STATE_STARTED ∧
      (Det_ReportKState st0 M I A E k).Det_BufferEntryCount = 1 ∧
      (Det_ReportKState st0 M I A E k).Det_BufferWriteIndex = 1 ∧
      (Det_ReportKState st0 M I A E k).Det_ErrorBuffer.length = DET_MAX_ERROR_BUFFER_SIZE ∧
      (Det_ReportKState st0 M I A E k).Det_Filters = st0.Det_Filters ∧
      (Det_ReportKState st0 M I A E k).Det_GlobalFilter = st0.Det_GlobalFilter ∧
      ∃ ts, (Det_ReportKState st0 M I A E k).Det_ErrorBuffer.getD 0 zeroEntry =
        { moduleId := M, instanceId := I, apiId := A, errorId := E,
          severity := DET_SEVERITY_ERROR, timestamp := ts,
          occurrences := k % UINT32_MOD } := by
  intro k hk
  induction k with
  | zero => exact absurd hk (by omega)
  | succ k ih =>
    by_cases hk0 : k = 0
    · subst hk0
      have hscan : Det_ScanForEntry st0 M I A E = none := by
        unfold Det_ScanForEntry
        rw [hC]
        rfl
      have hrep := reportError_accepted st0 M I A E hS hF
      have hadd := addToBuffer_none st0 M I A E hscan
      simp only [Det_ReportKState]
      rw [hrep]
      dsimp only
      rw [hadd]
      dsimp only
      rw [hC, hW]
      refine ⟨hS, by norm_num [DET_MAX_ERROR_BUFFER_SIZE],
        by norm_num [DET_MAX_ERROR_BUFFER_SIZE], by simpa using hL, rfl, rfl,
        st0.Det_TimestampCounter, ?_⟩
      rw [getD_set_self _ 0 _ _ (by rw [hL]; decide)]
      norm_num [UINT32_MOD]
    · have hk1 : 1 ≤ k := by omega
      obtain ⟨h1, h2, h3, h4, h5, h6, ts, h7⟩ := ih hk1
      have hFk : Det_IsErrorFiltered (Det_ReportKState st0 M I A E k) M DET_SEVERITY_ERROR
          = false := by
        rw [isErrorFiltered_congr _ st0 M DET_SEVERITY_ERROR h5 h6]
        exact hF
      have hidx : Det_ScanIdx (Det_ReportKState st0 M I A E k).Det_BufferWriteIndex 0 = 0 := by
        rw [h3]
        decide
      have hmatch : Det_EntryMatches
          ((Det_ReportKState st0 M I A E k).Det_ErrorBuffer.getD
            (Det_ScanIdx (Det_ReportKState st0 M I A E k).Det_BufferWriteIndex 0) zeroEntry)
          M I A E = true := by
        rw [hidx, h7]
        simp [Det_EntryMatches]
      have hscan : Det_ScanForEntry (Det_ReportKState st0 M I A E k) M I A E = some 0 := by
        unfold Det_ScanForEntry
        rw [h2]
        simpa [List.range_succ] using hmatch
      have hrep := reportError_accepted (Det_ReportKState st0 M I A E k) M I A E h1 hFk
      have hadd := addToBuffer_some (Det_ReportKState st0 M I A E k) M I A E 0 hscan
      simp only [Det_ReportKState]
      rw [hrep]
      dsimp only
      rw [hadd]
      dsimp only
      rw [hidx]
      refine ⟨h1, h2, h3, by simpa using h4, h5, h6,
        (Det_ReportKState st0 M I A E k).Det_TimestampCounter, ?_⟩
      rw [getD_set_self _ 0 _ _ (by rw [h4]; decide), h7]
      have hocc : u32 (k % UINT32_MOD + 1) = (k + 1) % UINT32_MOD := by
        simp only [u32, UINT32_MOD]
        omega
      simp [hocc]

/-- C6 (amended): for every `k ≥ 1`, reporting signature `(M,I,A,E)` exactly
`k` times into a Started module with an empty store (the signature not
suppressed by the filter) leaves exactly one valid entry — entry count 1 —
in slot 0, carrying that signature with `occurrences = k mod 2^32` (the
uint32 occurrence counter wraps; for every `k < 2^32` this equals `k`). -/
theorem c6_dedup_occurrences (st0 : DetState) (M I A E k : Nat)
    (hk : 1 ≤ k)
    (hS : st0.Det_State = .DET_STATE_STARTED)
    (hC : st0.Det_BufferEntryCount = 0)
    (hW : st0.Det_BufferWriteIndex = 0)
    (hL : st0.Det_ErrorBuffer.length = DET_MAX_ERROR_BUFFER_SIZE)
    (hF : Det_IsErrorFiltered st0 M DET_SEVERITY_ERROR = false) :
    (Det_ReportKState st0 M I A E k).Det_BufferEntryCount = 1 ∧
    ((Det_ReportKState st0 M I A E k).Det_ErrorBuffer.getD 0 zeroEntry).moduleId = M ∧
    ((Det_ReportKState st0 M I A E k).Det_ErrorBuffer.getD 0 zeroEntry).instanceId = I ∧
    ((Det_ReportKState st0 M I A E k).Det_ErrorBuffer.getD 0 zeroEntry).apiId = A ∧
    ((Det_ReportKState st0 M I A E k).Det_ErrorBuffer.getD 0 zeroEntry).errorId = E ∧
    ((Det_ReportKState st0 M I A E k).Det_ErrorBuffer.getD 0 zeroEntry).occurrences =
      k % UINT32_MOD := by
  obtain ⟨-, h2, -, -, -, -, ts, h7⟩ := reportK_spec st0 M I A E hS hC hW hL hF k hk
  rw [h7]
  exact ⟨h2, rfl, rfl, rfl, rfl, rfl⟩

/-- Counterexample for C6 as frozen ("occurrences equals k for every
k ≥ 1"): after reporting the same signature 2^32 times the uint32
occurrence counter has wrapped to 0, not 2^32 — although the store still
holds exactly one entry for the signature. -/
theorem c6_counterexample :
    ((Det_ReportKState Det_StartedState 7 1 2 3 4294967296).Det_ErrorBuffer.getD 0
      zeroEntry).occurrences = 0 ∧
    (0 : Nat) ≠ 4294967296 ∧
    (Det_ReportKState Det_StartedState 7 1 2 3 4294967296).Det_BufferEntryCount = 1 := by
  obtain ⟨-, h2, -, -, -, -, ts, h7⟩ :=
    reportK_spec Det_StartedState 7 1 2 3 (by decide) (by decide) (by decide) (by decide)
      (by decide) 4294967296 (by norm_num)
  rw [h7]
  refine ⟨?_, by norm_num, h2⟩
  norm_num [UINT32_MOD]

/-- Witness for the amended C6 theorem: three reports of signature (7,1,2,3)
into the freshly started module give one entry with occurrences 3 mod 2^32. -/
theorem c6_witness :
    (Det_ReportKState Det_StartedState 7 1 2 3 3).Det_BufferEntryCount = 1 ∧
    ((Det_ReportKState Det_StartedState 7 1 2 3 3).Det_ErrorBuffer.getD 0
      zeroEntry).moduleId = 7 ∧
    ((Det_ReportKState Det_StartedState 7 1 2 3 3).Det_ErrorBuffer.getD 0
      zeroEntry).instanceId = 1 ∧
    ((Det_ReportKState Det_StartedState 7 1 2 3 3).Det_ErrorBuffer.getD 0
      zeroEntry).apiId = 2 ∧
    ((Det_ReportKState Det_StartedState 7 1 2 3 3).Det_ErrorBuffer.getD 0
      zeroEntry).errorId = 3 ∧
    ((Det_ReportKState Det_StartedState 7 1 2 3 3).Det_ErrorBuffer.getD 0
      zeroEntry).occurrences = 3 % UINT32_MOD :=
  c6_dedup_occurrences Det_StartedState 7 1 2 3 3 (by norm_num) (by decide) (by decide)
    (by decide) (by decide) (by decide)

/-- Helper for C9: distinct loop iterations visit distinct slots (the
visit index is injective modulo the capacity). -/
lemma iterate_mod_inj (s n i j : Nat) (hn : n ≤ 64) (hi : i < n) (hj : j < n)
    (heq : (s + i) % 64 = (s + j) % 64) : i = j := by omega

/-- Helper for C9: under the ring-store invariant, the `i`-th visited slot
is exactly the `(count - 1 - i)`-th most recent slot, i.e. the visit order
is oldest-to-newest. -/
lemma iterate_idx_eq_recency (W n i : Nat) (hW : W < 64) (hn : n ≤ 64) (hi : i < n)
    (hwc : n < 64 → W = n) :
    ((if n < 64 then 0 else W) + i) % 64 = (W + 64 - 1 - (n - 1 - i)) % 64 := by
  by_cases hc : n < 64
  · have hWn := hwc hc
    simp only [hc, if_true]
    omega
  · simp only [hc, if_false]
    omega

/-- C9: for every state satisfying the ring-store invariant and every
non-null visitor, `Det_IterateErrors` returns exactly the entry count,
visits exactly that many slots, each valid slot exactly once (the visited
indices are distinct, in capacity range, and within the valid range when
the buffer has not wrapped), in oldest-to-newest order — the reverse of the
most-recent-first order anchored at the slot `Det_GetLastError` reads — and
leaves the whole module state (buffer, cursor, count, statistics)
unchanged. -/
theorem c9_iterate_complete (st : DetState) (cb : Nat) (h : Det_Inv st) :
    (Det_IterateErrors st (some cb)).1 = st.Det_BufferEntryCount ∧
    (Det_IterateErrors st (some cb)).2.2 = st ∧
    (Det_IterateErrors st (some cb)).2.1.length = st.Det_BufferEntryCount ∧
    (Det_IterateErrors st (some cb)).2.1.Nodup ∧
    (∀ idx ∈ (Det_IterateErrors st (some cb)).2.1, idx < DET_MAX_ERROR_BUFFER_SIZE) ∧
    (st.Det_BufferEntryCount < DET_MAX_ERROR_BUFFER_SIZE →
      ∀ idx ∈ (Det_IterateErrors st (some cb)).2.1, idx < st.Det_BufferEntryCount) ∧
    (Det_IterateErrors st (some cb)).2.1 =
      ((List.range st.Det_BufferEntryCount).map (Det_RecencyIdx st)).reverse := by
  obtain ⟨hcle, hwlt, hlen, hwc⟩ := h
  by_cases hzero : st.Det_BufferEntryCount = 0
  · refine ⟨?_, ?_, ?_, ?_, ?_, ?_, ?_⟩ <;> simp [Det_IterateErrors, hzero]
  · unfold Det_IterateErrors
    rw [if_neg hzero]
    simp only [DET_MAX_ERROR_BUFFER_SIZE] at hcle hwlt hwc ⊢
    refine ⟨by trivial, by trivial, by simp, ?_, ?_, ?_, ?_⟩
    · refine List.Nodup.map_on ?_ (List.nodup_range _)
      intro i hi j hj heq
      rw [List.mem_range] at hi hj
      exact iterate_mod_inj _ st.Det_BufferEntryCount i j hcle hi hj heq
    · intro idx hidx
      rw [List.mem_map] at hidx
      obtain ⟨i, -, hival⟩ := hidx
      omega
    · intro hlt idx hidx
      rw [List.mem_map] at hidx
      obtain ⟨i, hmem, hival⟩ := hidx
      rw [List.mem_range] at hmem
      have hWn := hwc hlt
      simp only [hlt, if_true] at hival
      omega
    · apply List.ext_getElem
      · simp
      · intro i h1 h2
        have hi : i < st.Det_BufferEntryCount := by simpa using h1
        rw [List.getElem_reverse]
        simp only [List.getElem_map, List.getElem_range, List.length_map,
          List.length_range, Det_RecencyIdx, DET_MAX_ERROR_BUFFER_SIZE]
        exact iterate_idx_eq_recency st.Det_BufferWriteIndex st.Det_BufferEntryCount i
          hwlt hcle hi hwc

/-- Witness for C9 at the concrete reachable state holding three distinct
entries. -/
theorem c9_witness :
    Det_Inv (Det_RunDistinct 3) ∧
    ((Det_IterateErrors (Det_RunDistinct 3) (some 0)).1 =
       (Det_RunDistinct 3).Det_BufferEntryCount ∧
     (Det_IterateErrors (Det_RunDistinct 3) (some 0)).2.2 = Det_RunDistinct 3 ∧
     (Det_IterateErrors (Det_RunDistinct 3) (some 0)).2.1.length =
       (Det_RunDistinct 3).Det_BufferEntryCount ∧
     (Det_IterateErrors (Det_RunDistinct 3) (some 0)).2.1.Nodup ∧
     (∀ idx ∈ (Det_IterateErrors (Det_RunDistinct 3) (some 0)).2.1,
        idx < DET_MAX_ERROR_BUFFER_SIZE) ∧
     ((Det_RunDistinct 3).Det_BufferEntryCount < DET_MAX_ERROR_BUFFER_SIZE →
       ∀ idx ∈ (Det_IterateErrors (Det_RunDistinct 3) (some 0)).2.1,
         idx < (Det_RunDistinct 3).Det_BufferEntryCount) ∧
     (Det_IterateErrors (Det_RunDistinct 3) (some 0)).2.1 =
       ((List.range (Det_RunDistinct 3).Det_BufferEntryCount).map
         (Det_RecencyIdx (Det_RunDistinct 3))).reverse) :=
  ⟨by decide, c9_iterate_complete (Det_RunDistinct 3) 0 (by decide)⟩

end DetSpec
